import Mathlib

/-
Verification of sunpy.coordinates.screens (SphericalScreen, PlanarScreen,
BaseScreen).  The module computes, for each 2D sky position of an observer
centered frame, the line of sight distance to an assumed screen surface.

Embedding notes.
  * Machine floats are modelled by real numbers; the nonfinite results that
    numpy produces (NaN from the square root of a negative number, NaN and
    signed infinity from division by zero) are modelled by the inductive
    type FVal, with the branches on the degenerate denominators made
    explicit where numpy produces them implicitly.
  * The astropy SkyCoord objects held by a screen are references to mutable
    state (their positions depend on the current obstime of the object), so
    a screen stores a reference (a natural number) and every access goes
    through an explicit store mapping references to the current Sun
    centered cartesian position of the coordinate, as given by the external
    astropy transform to HeliographicStonyhurst.
  * A frame carries the radius of its observer from the body center, the
    external astropy transform taking a Sun centered position to cartesian
    coordinates of the frame (the observer sits at the frame origin), and
    the list of sky positions as line of sight unit direction vectors.
  * Python constructors that the source gives no raise path are embedded as
    Except valued functions that always return ok, so that claims about
    raised construction errors can be stated.
  * The numpy errstate context used by SphericalScreen.calculate_distance
    is modelled by explicit state passing of the error handling mode.
-/

noncomputable section

/-- Cartesian 3-vector with real components, modelling an astropy
CartesianRepresentation value. -/
structure V3 where
  x : ℝ
  y : ℝ
  z : ℝ

def V3.add (v w : V3) : V3 := ⟨v.x + w.x, v.y + w.y, v.z + w.z⟩

instance : Add V3 := ⟨V3.add⟩

def V3.sub (v w : V3) : V3 := ⟨v.x - w.x, v.y - w.y, v.z - w.z⟩

instance : Sub V3 := ⟨V3.sub⟩

def V3.smul (a : ℝ) (v : V3) : V3 := ⟨a * v.x, a * v.y, a * v.z⟩

instance : SMul ℝ V3 := ⟨V3.smul⟩

/-- The zero vector. -/
def V3.zero : V3 := ⟨0, 0, 0⟩

/-- CartesianRepresentation.dot. -/
def V3.dot (v w : V3) : ℝ := v.x * w.x + v.y * w.y + v.z * w.z

/-- The squared Euclidean length. -/
def V3.normSq (v : V3) : ℝ := v.dot v

/-- CartesianRepresentation.norm: the Euclidean length. -/
def V3.norm (v : V3) : ℝ := Real.sqrt v.normSq

/-- CartesianRepresentation(1, 0, 0). -/
def xAxis : V3 := ⟨1, 0, 0⟩

@[simp] theorem v3_add_mk (a b c d e g : ℝ) :
    (V3.mk a b c) + (V3.mk d e g) = V3.mk (a + d) (b + e) (c + g) := rfl

@[simp] theorem v3_sub_mk (a b c d e g : ℝ) :
    (V3.mk a b c) - (V3.mk d e g) = V3.mk (a - d) (b - e) (c - g) := rfl

@[simp] theorem v3_smul_mk (r a b c : ℝ) :
    r • (V3.mk a b c) = V3.mk (r * a) (r * b) (r * c) := rfl

@[simp] theorem v3_dot_mk (a b c d e g : ℝ) :
    (V3.mk a b c).dot (V3.mk d e g) = a * d + b * e + c * g := rfl

/-- A numpy floating point result: a finite value, NaN, or a signed
infinity (true stands for the positive sign). -/
inductive FVal where
  | fin : ℝ → FVal
  | nan : FVal
  | inf : Bool → FVal

/-- Whether a floating point result is finite. -/
def FVal.isFinite : FVal → Bool
  | .fin _ => true
  | _ => false

/-- Python exceptions relevant to the module. -/
inductive PyError where
  | notImplementedError : PyError

/-- The state of the SkyCoord objects: each reference (the identity of a
Python object) maps to the current Sun centered cartesian position of the
coordinate, as produced by the external astropy transform to
HeliographicStonyhurst at the current obstime of the object. -/
def CoordStore : Type := Nat → V3

/-- An observer centered coordinate frame (Helioprojective):
observerRadius is frame.observer.radius, transform is the external astropy
transform taking a Sun centered position to cartesian coordinates of this
frame (the observer sits at the origin), and dirs holds the sky positions
of the frame as line of sight unit direction vectors, the result of
frame.represent_as(UnitSphericalRepresentation). -/
structure Frame where
  observerRadius : ℝ
  transform : V3 → V3
  dirs : List V3

/-- The numpy floating point error handling mode for invalid operations. -/
structure NpErrState where
  invalid : String

/-- with np.errstate(invalid=mode): save the incoming state, run the body
under the new state, restore the saved state on exit. -/
def withErrstate {α : Type} (mode : String) (st : NpErrState)
    (body : NpErrState → α × NpErrState) : α × NpErrState :=
  let saved := st.invalid
  let r := body ⟨mode⟩
  (r.1, ⟨saved⟩)

/-- BaseScreen: the base screen class, holding the two attributes set by
its constructor. -/
structure BaseScreen where
  type : String
  only_off_disk : Bool

/-- BaseScreen.__init__(type, only_off_disk): stores the two attributes;
the source has no raise path, so construction always returns an object. -/
def BaseScreen.init (type : String) (only_off_disk : Bool) :
    Except PyError BaseScreen :=
  .ok ⟨type, only_off_disk⟩

/-- BaseScreen.calculate_distance raises NotImplementedError. -/
def BaseScreen.calculate_distance (_ : BaseScreen) : Except PyError (List FVal) :=
  .error .notImplementedError

/-- SphericalScreen: stores a reference to the center SkyCoord and the base
class attributes (the type attribute is the constant string below). -/
structure SphericalScreen where
  center : Nat
  only_off_disk : Bool

/-- The type attribute passed by SphericalScreen.__init__ to the base. -/
def SphericalScreen.type (_ : SphericalScreen) : String := "spherical"

/-- SphericalScreen.__init__(center): stores the reference to center; the
source has no raise path and computes no derived quantity, so the current
state of the coordinate store is ignored. -/
def SphericalScreen.init (center : Nat) (only_off_disk : Bool)
    (_ : CoordStore) : Except PyError SphericalScreen :=
  .ok ⟨center, only_off_disk⟩

/-- center_hgs property: center transformed to HeliographicStonyhurst at
the obstime of center, which is the current Sun centered position held by
the store. -/
def SphericalScreen.center_hgs (s : SphericalScreen) (σ : CoordStore) : V3 :=
  σ s.center

/-- radius property: the radius coordinate of center_hgs, its distance
from the body center; recomputed from the store on each access. -/
def SphericalScreen.radius (s : SphericalScreen) (σ : CoordStore) : ℝ :=
  (s.center_hgs σ).norm

/-- sphere_center = self.center.transform_to(frame).cartesian. -/
def SphericalScreen.sphere_center (s : SphericalScreen) (σ : CoordStore)
    (f : Frame) : V3 :=
  f.transform (σ s.center)

/-- c = sphere_center.norm()**2 - self.radius**2. -/
def SphericalScreen.coeff_c (s : SphericalScreen) (σ : CoordStore)
    (f : Frame) : ℝ :=
  (s.sphere_center σ f).norm ^ 2 - s.radius σ ^ 2

/-- b = -2 * sphere_center.dot(rep), for one sky position rep. -/
def SphericalScreen.coeff_b (s : SphericalScreen) (σ : CoordStore)
    (f : Frame) (rep : V3) : ℝ :=
  -2 * (s.sphere_center σ f).dot rep

/-- The argument of the square root, b**2 - 4*c. -/
def SphericalScreen.disc (s : SphericalScreen) (σ : CoordStore)
    (f : Frame) (rep : V3) : ℝ :=
  s.coeff_b σ f rep ^ 2 - 4 * s.coeff_c σ f

/-- distance = ((-1*b) + np.sqrt(b**2 - 4*c)) / 2 for one sky position;
np.sqrt of a negative argument is NaN and NaN propagates through the sum
and the halving, so a negative square root argument gives NaN. -/
def SphericalScreen.calculate_distance_point (s : SphericalScreen)
    (σ : CoordStore) (f : Frame) (rep : V3) : FVal :=
  if s.disc σ f rep < 0 then FVal.nan
  else FVal.fin ((-1 * s.coeff_b σ f rep + Real.sqrt (s.disc σ f rep)) / 2)

/-- SphericalScreen.calculate_distance(frame): the vectorized numpy
expression maps the per point computation over the sky positions of the
frame, inside the errstate context that ignores invalid value warnings. -/
def SphericalScreen.calculate_distance (s : SphericalScreen) (σ : CoordStore)
    (f : Frame) (st : NpErrState) : List FVal × NpErrState :=
  withErrstate "ignore" st
    (fun st1 => (f.dirs.map (fun rep => s.calculate_distance_point σ f rep), st1))

/-- PlanarScreen: stores a reference to the vantage point SkyCoord and the
base class attributes (the type attribute is the constant string below). -/
structure PlanarScreen where
  vantage_point : Nat
  only_off_disk : Bool

/-- The type attribute passed by PlanarScreen.__init__ to the base. -/
def PlanarScreen.type (_ : PlanarScreen) : String := "planar"

/-- PlanarScreen.__init__(vantage_point): stores the reference; the source
has no raise path and performs no validation. -/
def PlanarScreen.init (vantage_point : Nat) (only_off_disk : Bool)
    (_ : CoordStore) : Except PyError PlanarScreen :=
  .ok ⟨vantage_point, only_off_disk⟩

/-- direction = self.vantage_point.transform_to(frame).cartesian. -/
def PlanarScreen.direction0 (p : PlanarScreen) (σ : CoordStore)
    (f : Frame) : V3 :=
  f.transform (σ p.vantage_point)

/-- direction = CartesianRepresentation(1, 0, 0) * frame.observer.radius
- direction. -/
def PlanarScreen.direction1 (p : PlanarScreen) (σ : CoordStore)
    (f : Frame) : V3 :=
  f.observerRadius • xAxis - p.direction0 σ f

/-- direction /= direction.norm(). -/
def PlanarScreen.direction (p : PlanarScreen) (σ : CoordStore)
    (f : Frame) : V3 :=
  (1 / (p.direction1 σ f).norm) • p.direction1 σ f

/-- d_from_plane = frame.observer.radius * direction.x. -/
def PlanarScreen.d_from_plane (p : PlanarScreen) (σ : CoordStore)
    (f : Frame) : ℝ :=
  f.observerRadius * (p.direction σ f).x

/-- distance = d_from_plane / rep.dot(direction) for one sky position,
with the IEEE division semantics of numpy made explicit: x divided by zero
is positive infinity for x > 0, negative infinity for x < 0, and NaN for
x = 0 (numpy emits a runtime warning but still returns the value). -/
def PlanarScreen.calculate_distance_point (p : PlanarScreen) (σ : CoordStore)
    (f : Frame) (rep : V3) : FVal :=
  if rep.dot (p.direction σ f) = 0 then
    if p.d_from_plane σ f = 0 then FVal.nan
    else if 0 < p.d_from_plane σ f then FVal.inf true
    else FVal.inf false
  else FVal.fin (p.d_from_plane σ f / rep.dot (p.direction σ f))

/-- PlanarScreen.calculate_distance(frame): the vectorized numpy expression
maps the per point computation over the sky positions of the frame; no
errstate context is used. -/
def PlanarScreen.calculate_distance (p : PlanarScreen) (σ : CoordStore)
    (f : Frame) (st : NpErrState) : List FVal × NpErrState :=
  (f.dirs.map (fun rep => p.calculate_distance_point σ f rep), st)

/-- The ray and sphere intersection quadratic in the distance t along the
line of sight: t^2 - 2 (S.dot D) t + (normSq S - r^2). -/
def sphereQuadratic (S D : V3) (r t : ℝ) : ℝ :=
  t ^ 2 - 2 * S.dot D * t + (S.normSq - r ^ 2)

/-- The discriminant over four of the intersection quadratic as the claims
word it: (S.dot D)^2 - normSq S + radius^2. -/
def sphDiscSpec (s : SphericalScreen) (σ : CoordStore) (f : Frame)
    (D : V3) : ℝ :=
  (s.sphere_center σ f).dot D ^ 2 - (s.sphere_center σ f).normSq + s.radius σ ^ 2

/-- The far root as the claims word it: S.dot D plus the square root of
the discriminant over four. -/
def sphFarRoot (s : SphericalScreen) (σ : CoordStore) (f : Frame)
    (D : V3) : ℝ :=
  (s.sphere_center σ f).dot D + Real.sqrt (sphDiscSpec s σ f D)

/-- Modelled from the spec words for the planar screen: the unit plane
normal, observerRadius times the x axis minus the vantage point position
expressed in the frame, normalized. -/
def planarSpecNormal (p : PlanarScreen) (σ : CoordStore) (f : Frame) : V3 :=
  (1 / (f.observerRadius • xAxis - f.transform (σ p.vantage_point)).norm) •
    (f.observerRadius • xAxis - f.transform (σ p.vantage_point))

/-- Modelled from the spec words for the planar screen: the intersection
distance t = d / (D.dot n) with d = observerRadius * n.x. -/
def planarSpecDistance (p : PlanarScreen) (σ : CoordStore) (f : Frame)
    (D : V3) : ℝ :=
  f.observerRadius * (planarSpecNormal p σ f).x / D.dot (planarSpecNormal p σ f)

/- Shared small lemmas about V3 and square roots. -/

theorem v3_normSq_nonneg (v : V3) : 0 ≤ v.normSq := by
  simp only [V3.normSq, V3.dot]
  have hx := mul_self_nonneg v.x
  have hy := mul_self_nonneg v.y
  have hz := mul_self_nonneg v.z
  linarith

theorem v3_norm_nonneg (v : V3) : 0 ≤ v.norm := Real.sqrt_nonneg _

theorem v3_norm_sq (v : V3) : v.norm ^ 2 = v.normSq :=
  Real.sq_sqrt (v3_normSq_nonneg v)

theorem real_sqrt_of_sq {a b : ℝ} (hb : 0 ≤ b) (h : b ^ 2 = a) :
    Real.sqrt a = b := by
  rw [← h, Real.sqrt_sq hb]

theorem v3_norm_mk_eval {a b c r : ℝ} (hr : 0 ≤ r)
    (h : r ^ 2 = a * a + b * b + c * c) : (V3.mk a b c).norm = r := by
  apply real_sqrt_of_sq hr
  simpa [V3.normSq, V3.dot] using h

/- Concrete instances used by the witnesses and counterexamples. -/

/-- Example frame: observer radius 10, the frame transform the translation
taking the body center to ten times the x axis (so the observer sits at
the frame origin), one sky position along the negative x axis. -/
def exFrameA : Frame := ⟨10, fun q => q + (10:ℝ) • xAxis, [⟨-1, 0, 0⟩]⟩

/-- Same geometry as exFrameA, one sky position along the y axis. -/
def exFrameB : Frame := ⟨10, fun q => q + (10:ℝ) • xAxis, [⟨0, 1, 0⟩]⟩

/-- Same geometry as exFrameA, one sky position along the x axis. -/
def exFrameC : Frame := ⟨10, fun q => q + (10:ℝ) • xAxis, [⟨1, 0, 0⟩]⟩

/-- A store placing every coordinate at Sun centered position (-1, 0, 0). -/
def exStoreA : CoordStore := fun _ => ⟨-1, 0, 0⟩

/-- A store placing every coordinate at Sun centered position (0, 3, 0). -/
def exStoreT : CoordStore := fun _ => ⟨0, 3, 0⟩

/-- A store placing every coordinate at the body center. -/
def exStoreZ : CoordStore := fun _ => ⟨0, 0, 0⟩

/-- A store placing every coordinate at Sun centered position (-10, 0, 0),
the position of the observer of the example frames. -/
def exStoreO : CoordStore := fun _ => ⟨-10, 0, 0⟩

/-- A spherical screen whose center is the coordinate with reference 0. -/
def exSph : SphericalScreen := ⟨0, false⟩

/-- A planar screen whose vantage point is the coordinate with
reference 0. -/
def exPlan : PlanarScreen := ⟨0, false⟩

theorem exSph_sphere_center_A :
    exSph.sphere_center exStoreA exFrameA = ⟨9, 0, 0⟩ := by
  show (⟨-1, 0, 0⟩ : V3) + (10:ℝ) • xAxis = _
  norm_num [xAxis]

theorem exSph_radius_A : exSph.radius exStoreA = 1 := by
  show (V3.mk (-1) 0 0).norm = 1
  apply v3_norm_mk_eval
  norm_num
  norm_num

theorem v3_zero_norm : V3.zero.norm = 0 := by
  simp [V3.norm, V3.zero, V3.normSq, V3.dot, Real.sqrt_zero]

theorem v3_sub_self (v : V3) : v - v = V3.zero := by
  cases v
  simp [V3.zero]

theorem v3_smul_zero_vec (a : ℝ) : a • V3.zero = V3.zero := by
  simp [V3.zero]

theorem v3_dot_zero_left (v : V3) : V3.zero.dot v = 0 := by
  simp [V3.zero, V3.dot]

theorem v3_dot_zero_right (v : V3) : v.dot V3.zero = 0 := by
  simp [V3.zero, V3.dot]

theorem exSph_sphere_center_B :
    exSph.sphere_center exStoreA exFrameB = ⟨9, 0, 0⟩ := by
  show (⟨-1, 0, 0⟩ : V3) + (10:ℝ) • xAxis = _
  norm_num [xAxis]

theorem exSph_sphere_center_TC :
    exSph.sphere_center exStoreT exFrameC = ⟨10, 3, 0⟩ := by
  show (⟨0, 3, 0⟩ : V3) + (10:ℝ) • xAxis = _
  norm_num [xAxis]

theorem exSph_radius_T : exSph.radius exStoreT = 3 := by
  show (V3.mk 0 3 0).norm = 3
  apply v3_norm_mk_eval
  norm_num
  norm_num

theorem exPlan_direction1_AB :
    exPlan.direction1 exStoreA exFrameB = ⟨1, 0, 0⟩ := by
  show (10:ℝ) • xAxis - ((⟨-1, 0, 0⟩ : V3) + (10:ℝ) • xAxis) = _
  norm_num [xAxis]

theorem exPlan_direction_AB :
    exPlan.direction exStoreA exFrameB = ⟨1, 0, 0⟩ := by
  rw [PlanarScreen.direction, exPlan_direction1_AB]
  rw [v3_norm_mk_eval (show (0:ℝ) ≤ 1 by norm_num) (by norm_num)]
  simp

theorem exPlan_direction1_AC :
    exPlan.direction1 exStoreA exFrameC = ⟨1, 0, 0⟩ := by
  show (10:ℝ) • xAxis - ((⟨-1, 0, 0⟩ : V3) + (10:ℝ) • xAxis) = _
  norm_num [xAxis]

theorem exPlan_direction_AC :
    exPlan.direction exStoreA exFrameC = ⟨1, 0, 0⟩ := by
  rw [PlanarScreen.direction, exPlan_direction1_AC]
  rw [v3_norm_mk_eval (show (0:ℝ) ≤ 1 by norm_num) (by norm_num)]
  simp

/-- Claim C1: for a spherical screen and a sky position whose line of
sight crosses the sphere at two points (positive discriminant of the
intersection quadratic), calculate_distance returns
S.dot D + sqrt((S.dot D)^2 - normSq S + radius^2); this value is a root
of the quadratic and every real root is at most it, so it is the larger
of the two real roots. -/
theorem spherical_far_root_selection (s : SphericalScreen) (σ : CoordStore)
    (f : Frame) (D : V3) (h : 0 < sphDiscSpec s σ f D) :
    s.calculate_distance_point σ f D = FVal.fin (sphFarRoot s σ f D) ∧
    sphereQuadratic (s.sphere_center σ f) D (s.radius σ)
      (sphFarRoot s σ f D) = 0 ∧
    ∀ t : ℝ, sphereQuadratic (s.sphere_center σ f) D (s.radius σ) t = 0 →
      t ≤ sphFarRoot s σ f D := by
  have hd : s.disc σ f D = 4 * sphDiscSpec s σ f D := by
    simp only [SphericalScreen.disc, SphericalScreen.coeff_b,
      SphericalScreen.coeff_c, sphDiscSpec, v3_norm_sq]
    ring
  have hs2 : Real.sqrt (sphDiscSpec s σ f D) ^ 2 = sphDiscSpec s σ f D :=
    Real.sq_sqrt h.le
  have hs2e : Real.sqrt (sphDiscSpec s σ f D) ^ 2 =
      (s.sphere_center σ f).dot D ^ 2 - (s.sphere_center σ f).normSq +
        s.radius σ ^ 2 := by
    rw [hs2]
    rfl
  have hnot : ¬ s.disc σ f D < 0 := by
    rw [hd]
    linarith
  have hste : Real.sqrt (s.disc σ f D) = 2 * Real.sqrt (sphDiscSpec s σ f D) := by
    rw [hd, show (4:ℝ) * sphDiscSpec s σ f D = 2 ^ 2 * sphDiscSpec s σ f D by ring,
      Real.sqrt_mul (by norm_num : (0:ℝ) ≤ 2 ^ 2),
      Real.sqrt_sq (by norm_num : (0:ℝ) ≤ 2)]
  refine ⟨?_, ?_, ?_⟩
  · simp only [SphericalScreen.calculate_distance_point, if_neg hnot, hste,
      SphericalScreen.coeff_b, sphFarRoot]
    congr 1
    ring
  · simp only [sphereQuadratic, sphFarRoot]
    linear_combination hs2e
  · intro t ht
    simp only [sphereQuadratic] at ht
    simp only [sphFarRoot]
    nlinarith [Real.sqrt_nonneg (sphDiscSpec s σ f D), hs2e,
      sq_nonneg (t - (s.sphere_center σ f).dot D -
        Real.sqrt (sphDiscSpec s σ f D)),
      sq_nonneg (t - (s.sphere_center σ f).dot D +
        Real.sqrt (sphDiscSpec s σ f D))]

/-- Witness for C1 at a concrete screen geometry: sphere center at frame
position (9, 0, 0) with radius 1, sky direction along the negative x
axis; the discriminant is positive and the far root is returned. -/
theorem spherical_far_root_selection_witness :
    0 < sphDiscSpec exSph exStoreA exFrameA ⟨-1, 0, 0⟩ ∧
    exSph.calculate_distance_point exStoreA exFrameA ⟨-1, 0, 0⟩ =
      FVal.fin (sphFarRoot exSph exStoreA exFrameA ⟨-1, 0, 0⟩) := by
  have h : 0 < sphDiscSpec exSph exStoreA exFrameA ⟨-1, 0, 0⟩ := by
    rw [sphDiscSpec, exSph_sphere_center_A, exSph_radius_A]
    norm_num [V3.normSq]
  exact ⟨h, (spherical_far_root_selection _ _ _ _ h).1⟩

/-- Claim C5: when the discriminant of the intersection quadratic is
exactly zero (ray tangent to the sphere), calculate_distance returns the
coincident root S.dot D, a finite value and not NaN. -/
theorem spherical_tangent_root (s : SphericalScreen) (σ : CoordStore)
    (f : Frame) (D : V3) (h : s.disc σ f D = 0) :
    s.calculate_distance_point σ f D =
      FVal.fin ((s.sphere_center σ f).dot D) := by
  have hnot : ¬ s.disc σ f D < 0 := by
    rw [h]
    exact lt_irrefl 0
  rw [SphericalScreen.calculate_distance_point, if_neg hnot, h,
    Real.sqrt_zero, SphericalScreen.coeff_b]
  congr 1
  ring

/-- Witness for C5 at a concrete tangent geometry: sphere center at frame
position (10, 3, 0) with radius 3, sky direction along the x axis; the
discriminant is zero and the tangent distance 10 is returned. -/
theorem spherical_tangent_root_witness :
    exSph.disc exStoreT exFrameC ⟨1, 0, 0⟩ = 0 ∧
    exSph.calculate_distance_point exStoreT exFrameC ⟨1, 0, 0⟩ =
      FVal.fin ((exSph.sphere_center exStoreT exFrameC).dot ⟨1, 0, 0⟩) := by
  have h : exSph.disc exStoreT exFrameC ⟨1, 0, 0⟩ = 0 := by
    rw [SphericalScreen.disc, SphericalScreen.coeff_b, SphericalScreen.coeff_c,
      v3_norm_sq, exSph_sphere_center_TC, exSph_radius_T]
    norm_num [V3.normSq]
  exact ⟨h, spherical_tangent_root _ _ _ _ h⟩

/-- Claim C6: for a spherical screen whose center is the observer of the
queried frame (the center transforms to the frame origin), the returned
distance is the same for every sky position D and equals the distance of
the center, hence of the observer, from the body center. -/
theorem sphere_at_observer_constant (s : SphericalScreen) (σ : CoordStore)
    (f : Frame) (D : V3) (h : f.transform (σ s.center) = V3.zero) :
    s.calculate_distance_point σ f D = FVal.fin ((σ s.center).norm) := by
  have hS : s.sphere_center σ f = V3.zero := h
  have hb : s.coeff_b σ f D = 0 := by
    simp [SphericalScreen.coeff_b, hS, v3_dot_zero_left]
  have hr : s.radius σ = (σ s.center).norm := rfl
  have hrn : 0 ≤ s.radius σ := v3_norm_nonneg _
  have hc : s.coeff_c σ f = -(s.radius σ ^ 2) := by
    simp only [SphericalScreen.coeff_c, hS, v3_zero_norm]
    ring
  have hdisc : s.disc σ f D = 4 * s.radius σ ^ 2 := by
    simp only [SphericalScreen.disc, hb, hc]
    ring
  have hnot : ¬ s.disc σ f D < 0 := by
    rw [hdisc]
    nlinarith [sq_nonneg (s.radius σ)]
  have hsq : Real.sqrt (s.disc σ f D) = 2 * s.radius σ := by
    rw [hdisc]
    exact real_sqrt_of_sq (by linarith) (by ring)
  simp only [SphericalScreen.calculate_distance_point, if_neg hnot, hsq, hb]
  rw [← hr]
  congr 1
  ring

/-- Witness for C6: the example frame has its observer at Sun centered
position (-10, 0, 0); a screen centered there transforms to the frame
origin and every sky position gets the distance of the observer from the
body center. -/
theorem sphere_at_observer_constant_witness :
    exFrameC.transform (exStoreO exSph.center) = V3.zero ∧
    exSph.calculate_distance_point exStoreO exFrameC ⟨1, 0, 0⟩ =
      FVal.fin ((exStoreO exSph.center).norm) := by
  have h : exFrameC.transform (exStoreO exSph.center) = V3.zero := by
    show (⟨-10, 0, 0⟩ : V3) + (10:ℝ) • xAxis = V3.zero
    norm_num [xAxis, V3.zero]
  exact ⟨h, sphere_at_observer_constant _ _ _ _ h⟩

/-- Claim C10: a concrete spherical screen and sky position for which both
roots of the intersection quadratic are negative (the quadratic factors as
(t + 10)(t + 8), roots -10 and -8): calculate_distance returns the larger
root -8 as a finite negative value, neither clamped nor converted to
NaN. -/
theorem spherical_negative_far_root :
    exSph.calculate_distance_point exStoreA exFrameA ⟨-1, 0, 0⟩ =
      FVal.fin (-8) ∧
    (∀ t : ℝ, sphereQuadratic (exSph.sphere_center exStoreA exFrameA)
      ⟨-1, 0, 0⟩ (exSph.radius exStoreA) t = (t + 10) * (t + 8)) ∧
    ((-10:ℝ) < 0) ∧ ((-8:ℝ) < 0) ∧ ((-10:ℝ) ≤ -8) := by
  have hb : exSph.coeff_b exStoreA exFrameA ⟨-1, 0, 0⟩ = 18 := by
    rw [SphericalScreen.coeff_b, exSph_sphere_center_A]
    norm_num
  have hc : exSph.coeff_c exStoreA exFrameA = 80 := by
    rw [SphericalScreen.coeff_c, v3_norm_sq, exSph_sphere_center_A,
      exSph_radius_A]
    norm_num [V3.normSq]
  have hd : exSph.disc exStoreA exFrameA ⟨-1, 0, 0⟩ = 4 := by
    rw [SphericalScreen.disc, hb, hc]
    norm_num
  refine ⟨?_, ?_, by norm_num, by norm_num, by norm_num⟩
  · rw [SphericalScreen.calculate_distance_point, if_neg (by rw [hd]; norm_num),
      hd, hb, real_sqrt_of_sq (show (0:ℝ) ≤ 2 by norm_num) (by norm_num)]
    norm_num
  · intro t
    rw [sphereQuadratic, exSph_sphere_center_A, exSph_radius_A]
    simp only [V3.normSq, v3_dot_mk]
    ring

/-- Claim C2: calculate_distance is total and signals per point geometric
degeneracies by values, not by raising, and the two degeneracies are
covered independently of each other: for any sky position of the frame, if
the spherical discriminant is negative the spherical screen gives NaN,
appearing as an element of its returned sequence, and if the ray is
orthogonal to the plane normal the planar screen gives a non finite value
(NaN or a signed infinity), appearing as an element of its returned
sequence. -/
theorem degenerate_rays_nonfinite (s : SphericalScreen) (p : PlanarScreen)
    (σ : CoordStore) (f : Frame) (D : V3) (st : NpErrState)
    (hD : D ∈ f.dirs) :
    (s.disc σ f D < 0 →
      s.calculate_distance_point σ f D = FVal.nan ∧
      FVal.nan ∈ (s.calculate_distance σ f st).1) ∧
    (D.dot (p.direction σ f) = 0 →
      (p.calculate_distance_point σ f D).isFinite = false ∧
      p.calculate_distance_point σ f D ∈ (p.calculate_distance σ f st).1) := by
  constructor
  · intro hs
    have h1 : s.calculate_distance_point σ f D = FVal.nan := by
      rw [SphericalScreen.calculate_distance_point, if_pos hs]
    refine ⟨h1, ?_⟩
    show FVal.nan ∈ f.dirs.map (fun rep => s.calculate_distance_point σ f rep)
    exact List.mem_map.mpr ⟨D, hD, h1⟩
  · intro hp
    have h2 : (p.calculate_distance_point σ f D).isFinite = false := by
      rw [PlanarScreen.calculate_distance_point, if_pos hp]
      by_cases h0 : p.d_from_plane σ f = 0
      · rw [if_pos h0]
        rfl
      · rw [if_neg h0]
        by_cases hpos : 0 < p.d_from_plane σ f
        · rw [if_pos hpos]
          rfl
        · rw [if_neg hpos]
          rfl
    refine ⟨h2, ?_⟩
    show p.calculate_distance_point σ f D ∈
      f.dirs.map (fun rep => p.calculate_distance_point σ f rep)
    exact List.mem_map.mpr ⟨D, hD, rfl⟩

/-- Witness for C2: sky direction along the y axis, sphere center at frame
position (9, 0, 0) with radius 1 (discriminant -320), plane normal along
the x axis (denominator zero); the spherical screen yields NaN and the
planar screen a non finite value, inside the returned sequences. -/
theorem degenerate_rays_nonfinite_witness :
    (⟨0, 1, 0⟩ : V3) ∈ exFrameB.dirs ∧
    exSph.disc exStoreA exFrameB ⟨0, 1, 0⟩ < 0 ∧
    (⟨0, 1, 0⟩ : V3).dot (exPlan.direction exStoreA exFrameB) = 0 ∧
    exSph.calculate_distance_point exStoreA exFrameB ⟨0, 1, 0⟩ = FVal.nan ∧
    (exPlan.calculate_distance_point exStoreA exFrameB ⟨0, 1, 0⟩).isFinite
      = false ∧
    FVal.nan ∈ (exSph.calculate_distance exStoreA exFrameB ⟨"warn"⟩).1 := by
  have hD : (⟨0, 1, 0⟩ : V3) ∈ exFrameB.dirs := by
    show _ ∈ [(⟨0, 1, 0⟩ : V3)]
    exact List.mem_singleton.mpr rfl
  have hs : exSph.disc exStoreA exFrameB ⟨0, 1, 0⟩ < 0 := by
    rw [SphericalScreen.disc, SphericalScreen.coeff_b, SphericalScreen.coeff_c,
      v3_norm_sq, exSph_sphere_center_B, exSph_radius_A]
    norm_num [V3.normSq]
  have hp : (⟨0, 1, 0⟩ : V3).dot (exPlan.direction exStoreA exFrameB) = 0 := by
    rw [exPlan_direction_AB]
    norm_num
  have hmain := degenerate_rays_nonfinite exSph exPlan exStoreA exFrameB
    ⟨0, 1, 0⟩ ⟨"warn"⟩ hD
  exact ⟨hD, hs, hp, (hmain.1 hs).1, (hmain.2 hp).1, (hmain.1 hs).2⟩

/-- Claim C3: for every planar screen and sky position with a nonzero
denominator, calculate_distance returns t = d / (D.dot n) with n the
normalization of observerRadius times the x axis minus the vantage point
position expressed in the frame, and d = observerRadius times n.x, as the
spec words it. -/
theorem planar_distance_formula (p : PlanarScreen) (σ : CoordStore)
    (f : Frame) (D : V3) (h : D.dot (planarSpecNormal p σ f) ≠ 0) :
    p.calculate_distance_point σ f D =
      FVal.fin (planarSpecDistance p σ f D) := by
  have hn : p.direction σ f = planarSpecNormal p σ f := rfl
  rw [PlanarScreen.calculate_distance_point, hn, if_neg h]
  rfl

/-- Witness for C3: vantage point at frame position (9, 0, 0), so the
plane normal is the x axis; the sky direction along the x axis has
denominator 1 and the distance 10 to the plane through the body center is
returned. -/
theorem planar_distance_formula_witness :
    (⟨1, 0, 0⟩ : V3).dot (planarSpecNormal exPlan exStoreA exFrameC) ≠ 0 ∧
    exPlan.calculate_distance_point exStoreA exFrameC ⟨1, 0, 0⟩ =
      FVal.fin (planarSpecDistance exPlan exStoreA exFrameC ⟨1, 0, 0⟩) := by
  have hn : planarSpecNormal exPlan exStoreA exFrameC = ⟨1, 0, 0⟩ :=
    exPlan_direction_AC
  have h : (⟨1, 0, 0⟩ : V3).dot (planarSpecNormal exPlan exStoreA exFrameC)
      ≠ 0 := by
    rw [hn]
    norm_num
  exact ⟨h, planar_distance_formula _ _ _ _ h⟩

/-- Claim C4 as amended: constructing a PlanarScreen with its vantage
point at the body center, or a SphericalScreen with its center at the
body center (derived radius 0), succeeds with no raised error, and the
degenerate geometry surfaces only per point in calculate_distance: the
planar screen returns NaN for every sky position (the plane normal
degenerates to the zero vector), and the radius zero spherical screen
returns NaN where the discriminant is negative and the numeric tangent
value S.dot D where the discriminant vanishes.  The hypothesis on the
frame transform states the helioprojective convention that the body
center sits at observerRadius times the x axis. -/
theorem screen_construction_no_validation (c v : Nat) (o : Bool)
    (σ : CoordStore) (f : Frame) (D : V3)
    (hc : σ c = V3.zero) (hv : σ v = V3.zero)
    (hf : f.transform V3.zero = f.observerRadius • xAxis) :
    SphericalScreen.init c o σ = Except.ok ⟨c, o⟩ ∧
    PlanarScreen.init v o σ = Except.ok ⟨v, o⟩ ∧
    (⟨c, o⟩ : SphericalScreen).radius σ = 0 ∧
    (⟨v, o⟩ : PlanarScreen).calculate_distance_point σ f D = FVal.nan ∧
    ((f.transform V3.zero).dot D ^ 2 < (f.transform V3.zero).normSq →
      (⟨c, o⟩ : SphericalScreen).calculate_distance_point σ f D = FVal.nan) ∧
    ((f.transform V3.zero).dot D ^ 2 = (f.transform V3.zero).normSq →
      (⟨c, o⟩ : SphericalScreen).calculate_distance_point σ f D =
        FVal.fin ((f.transform V3.zero).dot D)) := by
  have hrad : (⟨c, o⟩ : SphericalScreen).radius σ = 0 := by
    show (σ c).norm = 0
    rw [hc, v3_zero_norm]
  have hS : (⟨c, o⟩ : SphericalScreen).sphere_center σ f =
      f.transform V3.zero := by
    show f.transform (σ c) = _
    rw [hc]
  have hplan : (⟨v, o⟩ : PlanarScreen).calculate_distance_point σ f D =
      FVal.nan := by
    have hd1 : (⟨v, o⟩ : PlanarScreen).direction1 σ f = V3.zero := by
      show f.observerRadius • xAxis - f.transform (σ v) = V3.zero
      rw [hv, hf, v3_sub_self]
    have hdir : (⟨v, o⟩ : PlanarScreen).direction σ f = V3.zero := by
      rw [PlanarScreen.direction, hd1, v3_smul_zero_vec]
    have hdp : (⟨v, o⟩ : PlanarScreen).d_from_plane σ f = 0 := by
      rw [PlanarScreen.d_from_plane, hdir]
      show f.observerRadius * 0 = 0
      ring
    rw [PlanarScreen.calculate_distance_point, hdir, v3_dot_zero_right,
      if_pos rfl, if_pos hdp]
  have hcc : (⟨c, o⟩ : SphericalScreen).coeff_c σ f =
      (f.transform V3.zero).normSq := by
    rw [SphericalScreen.coeff_c, v3_norm_sq, hS, hrad]
    ring
  have hcb : (⟨c, o⟩ : SphericalScreen).coeff_b σ f D =
      -2 * (f.transform V3.zero).dot D := by
    rw [SphericalScreen.coeff_b, hS]
  have hdisc : (⟨c, o⟩ : SphericalScreen).disc σ f D =
      4 * (f.transform V3.zero).dot D ^ 2 - 4 * (f.transform V3.zero).normSq := by
    rw [SphericalScreen.disc, hcb, hcc]
    ring
  refine ⟨rfl, rfl, hrad, hplan, ?_, ?_⟩
  · intro hlt
    rw [SphericalScreen.calculate_distance_point, if_pos (by rw [hdisc]; linarith)]
  · intro heq
    have hd0 : (⟨c, o⟩ : SphericalScreen).disc σ f D = 0 := by
      rw [hdisc, heq]
      ring
    rw [SphericalScreen.calculate_distance_point, if_neg (by rw [hd0]; norm_num),
      hd0, Real.sqrt_zero, hcb]
    congr 1
    ring

/-- Witness for C4 at a concrete degenerate construction: both screens
built on a coordinate at the body center, queried in the example frame
along the x axis; the planar screen gives NaN and the radius zero
spherical screen gives the finite value 10. -/
theorem screen_construction_no_validation_witness :
    exStoreZ 0 = V3.zero ∧ exStoreZ 1 = V3.zero ∧
    exFrameC.transform V3.zero = exFrameC.observerRadius • xAxis ∧
    SphericalScreen.init 0 false exStoreZ = Except.ok ⟨0, false⟩ ∧
    PlanarScreen.init 1 false exStoreZ = Except.ok ⟨1, false⟩ ∧
    (⟨0, false⟩ : SphericalScreen).radius exStoreZ = 0 ∧
    (⟨1, false⟩ : PlanarScreen).calculate_distance_point exStoreZ exFrameC
      ⟨1, 0, 0⟩ = FVal.nan ∧
    (⟨0, false⟩ : SphericalScreen).calculate_distance_point exStoreZ exFrameC
      ⟨1, 0, 0⟩ = FVal.fin ((exFrameC.transform V3.zero).dot ⟨1, 0, 0⟩) := by
  have hc : exStoreZ 0 = V3.zero := rfl
  have hv : exStoreZ 1 = V3.zero := rfl
  have hf : exFrameC.transform V3.zero = exFrameC.observerRadius • xAxis := by
    show V3.zero + (10:ℝ) • xAxis = (10:ℝ) • xAxis
    norm_num [V3.zero, xAxis]
  have hcase : (exFrameC.transform V3.zero).dot (⟨1, 0, 0⟩ : V3) ^ 2 =
      (exFrameC.transform V3.zero).normSq := by
    show ((V3.zero + (10:ℝ) • xAxis).dot ⟨1, 0, 0⟩ : ℝ) ^ 2 =
      (V3.zero + (10:ℝ) • xAxis).normSq
    norm_num [V3.zero, xAxis, V3.normSq]
  have hmain := screen_construction_no_validation 0 1 false exStoreZ exFrameC
    ⟨1, 0, 0⟩ hc hv hf
  exact ⟨hc, hv, hf, hmain.1, hmain.2.1, hmain.2.2.1, hmain.2.2.2.1,
    hmain.2.2.2.2.2 hcase⟩

/-- Counterexample to C4 as stated: a SphericalScreen whose center is at
the body center (derived radius 0) is constructed with no raised error,
and its first use returns the plain numeric value 10 for the sky position
looking at the body center, so no invalid screen configuration failure is
signalled at construction or first use. -/
theorem screen_construction_counterexample :
    SphericalScreen.init 0 false exStoreZ = Except.ok ⟨0, false⟩ ∧
    (⟨0, false⟩ : SphericalScreen).radius exStoreZ = 0 ∧
    (⟨0, false⟩ : SphericalScreen).calculate_distance_point exStoreZ exFrameC
      ⟨1, 0, 0⟩ = FVal.fin 10 := by
  have hrad : (⟨0, false⟩ : SphericalScreen).radius exStoreZ = 0 := by
    show (V3.mk 0 0 0).norm = 0
    exact v3_norm_mk_eval le_rfl (by norm_num)
  have hS : (⟨0, false⟩ : SphericalScreen).sphere_center exStoreZ exFrameC =
      ⟨10, 0, 0⟩ := by
    show (⟨0, 0, 0⟩ : V3) + (10:ℝ) • xAxis = _
    norm_num [xAxis]
  have hb : (⟨0, false⟩ : SphericalScreen).coeff_b exStoreZ exFrameC
      ⟨1, 0, 0⟩ = -20 := by
    rw [SphericalScreen.coeff_b, hS]
    norm_num
  have hcc : (⟨0, false⟩ : SphericalScreen).coeff_c exStoreZ exFrameC = 100 := by
    rw [SphericalScreen.coeff_c, v3_norm_sq, hS, hrad]
    norm_num [V3.normSq]
  have hd : (⟨0, false⟩ : SphericalScreen).disc exStoreZ exFrameC
      ⟨1, 0, 0⟩ = 0 := by
    rw [SphericalScreen.disc, hb, hcc]
    norm_num
  refine ⟨rfl, hrad, ?_⟩
  rw [SphericalScreen.calculate_distance_point, if_neg (by rw [hd]; norm_num),
    hd, Real.sqrt_zero, hb]
  norm_num

/-- Claim C7: calculate_distance is a pure, deterministic function of the
screen, the coordinate states, and the frame: the numpy error handling
state is restored on exit (the only ambient state either variant touches),
the output sequence does not depend on that incoming state, and a repeated
call returns the same output sequence.  Screens, stores and frames are
immutable values of the embedding, so no attribute of the screen or the
frame is mutated by a call. -/
theorem calculate_distance_pure (s : SphericalScreen) (p : PlanarScreen)
    (σ : CoordStore) (f : Frame) (st st2 : NpErrState) :
    (s.calculate_distance σ f st).2 = st ∧
    (s.calculate_distance σ f st).1 = (s.calculate_distance σ f st2).1 ∧
    (p.calculate_distance σ f st).2 = st ∧
    (p.calculate_distance σ f st).1 = (p.calculate_distance σ f st2).1 :=
  ⟨rfl, rfl, rfl, rfl⟩

/-- Claim C8: the radius attribute of a SphericalScreen is derived from
the current state of the center coordinate on every access and equals the
distance of that position from the body center; the constructor stores
only the reference and caches nothing, so the state of the store at
construction time is irrelevant and a radius access after the center
state changes reflects the new state. -/
theorem spherical_radius_recomputed (c : Nat) (o : Bool)
    (σc σ1 σ2 : CoordStore) :
    SphericalScreen.init c o σc = Except.ok ⟨c, o⟩ ∧
    (⟨c, o⟩ : SphericalScreen).radius σ1 = (σ1 c).norm ∧
    (⟨c, o⟩ : SphericalScreen).radius σ2 = (σ2 c).norm :=
  ⟨rfl, rfl, rfl⟩

/-- Claim C9 as amended: instantiating the base screen type succeeds and
yields an object carrying the given attributes (the source has no guard
in the constructor), while the base type supplies no usable
calculate_distance: invoking it raises NotImplementedError
unconditionally, the hard failure for this programming misuse. -/
theorem base_screen_behavior (t : String) (o : Bool) :
    BaseScreen.init t o = Except.ok ⟨t, o⟩ ∧
    BaseScreen.calculate_distance ⟨t, o⟩ =
      Except.error PyError.notImplementedError :=
  ⟨rfl, rfl⟩

/-- Counterexample to C9 as stated: instantiating the base type directly
does not signal a failure; it yields a usable object whose attributes are
readable, and only the later call of calculate_distance errors. -/
theorem base_screen_counterexample :
    BaseScreen.init "base" false = Except.ok ⟨"base", false⟩ ∧
    (⟨"base", false⟩ : BaseScreen).type = "base" ∧
    (⟨"base", false⟩ : BaseScreen).only_off_disk = false :=
  ⟨rfl, rfl, rfl⟩
